import Mathlib

/-!
Verification of the task-orchestration and artifact-cache engine of the
jmcomic-crawler repository (src/app: models.py, storage.py, tasks.py,
downloader.py).  Python code is shallowly embedded: pure helpers become Lean
functions, the mutable manager state becomes explicit state passing, Python
floats become rationals, Python dicts become association lists, and the
background scheduler is modelled by recording which task bodies were
scheduled.
-/

set_option linter.unusedVariables false

/-! ## SHA-256 (hashlib.sha256, used by Storage.cache_key)

Words are `Nat` reduced modulo 2^32. -/

/-- Truncate to a 32-bit word. -/
def w32 (n : Nat) : Nat := n % 4294967296

/-- 32-bit right rotation. -/
def rotr32 (x n : Nat) : Nat := w32 ((x >>> n) ||| (x <<< (32 - n)))

/-- SHA-256 sigma-0 message-schedule function. -/
def shaSigma0 (x : Nat) : Nat := rotr32 x 7 ^^^ rotr32 x 18 ^^^ (x >>> 3)

/-- SHA-256 sigma-1 message-schedule function. -/
def shaSigma1 (x : Nat) : Nat := rotr32 x 17 ^^^ rotr32 x 19 ^^^ (x >>> 10)

/-- SHA-256 big-Sigma-0 compression function. -/
def shaBigSigma0 (x : Nat) : Nat := rotr32 x 2 ^^^ rotr32 x 13 ^^^ rotr32 x 22

/-- SHA-256 big-Sigma-1 compression function. -/
def shaBigSigma1 (x : Nat) : Nat := rotr32 x 6 ^^^ rotr32 x 11 ^^^ rotr32 x 25

/-- SHA-256 choice function; complement is xor against the 32-bit mask. -/
def shaCh (x y z : Nat) : Nat := (x &&& y) ^^^ ((x ^^^ 4294967295) &&& z)

/-- SHA-256 majority function. -/
def shaMaj (x y z : Nat) : Nat := (x &&& y) ^^^ (x &&& z) ^^^ (y &&& z)

/-- The 64 SHA-256 round constants. -/
def shaK : List Nat :=
  [1116352408, 1899447441, 3049323471, 3921009573, 961987163,
   1508970993, 2453635748, 2870763221, 3624381080, 310598401,
   607225278, 1426881987, 1925078388, 2162078206, 2614888103,
   3248222580, 3835390401, 4022224774, 264347078, 604807628,
   770255983, 1249150122, 1555081692, 1996064986, 2554220882,
   2821834349, 2952996808, 3210313671, 3336571891, 3584528711,
   113926993, 338241895, 666307205, 773529912, 1294757372,
   1396182291, 1695183700, 1986661051, 2177026350, 2456956037,
   2730485921, 2820302411, 3259730800, 3345764771, 3516065817,
   3600352804, 4094571909, 275423344, 430227734, 506948616,
   659060556, 883997877, 958139571, 1322822218, 1537002063,
   1747873779, 1955562222, 2024104815, 2227730452, 2361852424,
   2428436474, 2756734187, 3204031479, 3329325298]

/-- The SHA-256 initial hash value. -/
def shaH0 : List Nat :=
  [1779033703, 3144134277, 1013904242, 2773480762,
   1359893119, 2600822924, 528734635, 1541459225]

/-- Big-endian byte serialization of `n` into `k` bytes. -/
def beBytes (k n : Nat) : List Nat :=
  (List.range k).map (fun i => (n >>> (8 * (k - 1 - i))) % 256)

/-- SHA-256 padding of a byte message: append 0x80, zero bytes, and the
64-bit big-endian bit length. -/
def shaPad (msg : List Nat) : List Nat :=
  msg ++ 0x80 :: List.replicate ((119 - (msg.length % 64)) % 64) 0
      ++ beBytes 8 (8 * msg.length)

/-- Group bytes into big-endian 32-bit words. -/
def bytesToWords : List Nat → List Nat
  | b0 :: b1 :: b2 :: b3 :: rest =>
      (((b0 * 256 + b1) * 256 + b2) * 256 + b3) :: bytesToWords rest
  | _ => []

/-- Split a byte list into 64-byte blocks. -/
def chunks64 (l : List Nat) : List (List Nat) :=
  if h : l = [] then []
  else l.take 64 :: chunks64 (l.drop 64)
termination_by l.length
decreasing_by
  simp only [List.length_drop]
  exact Nat.sub_lt (List.length_pos.mpr h) (by decide)

/-- One step of the SHA-256 message-schedule extension. -/
def shaExtendStep (acc : List Nat) : List Nat :=
  let n := acc.length
  acc ++ [w32 (acc.getD (n - 16) 0 + shaSigma0 (acc.getD (n - 15) 0)
               + acc.getD (n - 7) 0 + shaSigma1 (acc.getD (n - 2) 0))]

/-- Extend 16 message words to the 64-entry SHA-256 schedule. -/
def shaSchedule (ws : List Nat) : List Nat :=
  (List.range 48).foldl (fun a _ => shaExtendStep a) ws

/-- One SHA-256 compression round on the 8-word working state. -/
def shaRound (st : List Nat) (kw : Nat × Nat) : List Nat :=
  match st with
  | [a, b, c, d, e, f, g, h] =>
      let t1 := w32 (h + shaBigSigma1 e + shaCh e f g + kw.1 + kw.2)
      let t2 := w32 (shaBigSigma0 a + shaMaj a b c)
      [w32 (t1 + t2), a, b, c, w32 (d + t1), e, f, g]
  | other => other

/-- SHA-256 compression of one 16-word block into the running hash. -/
def shaCompress (h : List Nat) (block : List Nat) : List Nat :=
  let st := (shaK.zip (shaSchedule block)).foldl shaRound h
  (h.zip st).map (fun p => w32 (p.1 + p.2))

/-- SHA-256 of a byte message, as the list of 8 hash words. -/
def sha256Words (msg : List Nat) : List Nat :=
  (chunks64 (shaPad msg)).foldl (fun h b => shaCompress h (bytesToWords b)) shaH0

/-- Lowercase hexadecimal digit. -/
def hexDigit (n : Nat) : Char :=
  if n < 10 then Char.ofNat (48 + n) else Char.ofNat (87 + n)

/-- Lowercase 8-digit hexadecimal rendering of a 32-bit word. -/
def hexWord8 (w : Nat) : String :=
  String.mk ((List.range 8).map (fun i => hexDigit ((w >>> (4 * (7 - i))) % 16)))

/-- `hashlib.sha256(bytes).hexdigest()`. -/
def sha256hex (msg : List Nat) : String :=
  String.join ((sha256Words msg).map hexWord8)

/-- UTF-8 encoding of a string as a byte list (`str.encode("utf-8")`). -/
def utf8Bytes (s : String) : List Nat :=
  s.toUTF8.toList.map (fun b => b.toNat)

/-! ## Data model (src/app/models.py) -/

/-- models.py `OutputFormat`: 'zip' | 'pdf'. -/
inductive OutputFormat
  | zip
  | pdf
deriving DecidableEq, Repr

/-- The `.value` of an `OutputFormat` member. -/
def OutputFormat.value : OutputFormat → String
  | .zip => "zip"
  | .pdf => "pdf"

/-- An element of `album_ids : List[Union[int, str]]`. -/
inductive AlbumId
  | int (n : Int)
  | str (s : String)
deriving DecidableEq, Repr

/-- Python `str(a)` on an album id. -/
def AlbumId.toStr : AlbumId → String
  | .int n => toString n
  | .str s => s

/-- models.py `TaskRequest` after pydantic validation: omitted fields already
hold their declared defaults. -/
structure TaskRequest where
  album_ids : List AlbumId
  output_format : OutputFormat
  quality : Option Int
  encrypt : Bool
  password : Option String
  compression : Option Int
  cache : Bool
  proxy : Option String
  option_file : Option String
deriving DecidableEq, Repr

/-- models.py `TaskStatusEnum`. -/
inductive TaskStatusEnum
  | queued
  | running
  | completed
  | failed
  | canceled
deriving DecidableEq, Repr

/-! ## Raw (pre-validation) requests and pydantic validation

A `RawRequest` distinguishes an omitted field (`none`) from an explicitly
supplied value (`some v`, where `v` itself may be an explicit JSON null for
the `Optional` fields). -/

/-- The raw `album_ids` value handed to the mode="before" validator:
a scalar int or str, a list, or null. -/
inductive RawIds
  | one (a : AlbumId)
  | many (l : List AlbumId)
  | null
deriving DecidableEq, Repr

/-- models.py `TaskRequest._coerce_ids`: a scalar becomes a one-element list;
`list(v or [])` turns null (and the empty list) into `[]` and keeps any
non-empty list. -/
def coerce_ids : RawIds → List AlbumId
  | .one a => [a]
  | .many l => l
  | .null => []

/-- A request payload before pydantic fills in field defaults. -/
structure RawRequest where
  album_ids : RawIds
  output_format : Option OutputFormat
  quality : Option (Option Int)
  encrypt : Option Bool
  password : Option (Option String)
  compression : Option (Option Int)
  cache : Option Bool
  proxy : Option (Option String)
  option_file : Option (Option String)
deriving DecidableEq, Repr

/-- The `ge=1, le=100` bound on `quality`. -/
def qualityOk : Option Int → Bool
  | none => true
  | some q => 1 ≤ q && q ≤ 100

/-- The `ge=0, le=9` bound on `compression`. -/
def compressionOk : Option Int → Bool
  | none => true
  | some c => 0 ≤ c && c ≤ 9

/-- Pydantic validation of models.py `TaskRequest`: run `_coerce_ids`,
fill in the declared field defaults, check the declared bounds.  There is no
constraint on the length of `album_ids`. -/
def validateRequest (r : RawRequest) : Option TaskRequest :=
  let quality := r.quality.getD none
  let compression := r.compression.getD (some 6)
  if qualityOk quality && compressionOk compression then
    some { album_ids := coerce_ids r.album_ids
           output_format := r.output_format.getD .zip
           quality := quality
           encrypt := r.encrypt.getD false
           password := r.password.getD none
           compression := compression
           cache := r.cache.getD true
           proxy := r.proxy.getD none
           option_file := r.option_file.getD none }
  else none

/-! ## Cache key (tasks.py `TaskManager.submit` lines 46-57 and
storage.py `Storage.cache_key`) -/

/-- Python `sorted` on a list of strings.  CPython's sort is stable, and any
stable sort under the same order produces the same list; modelled by
insertion sort. -/
def pySorted (l : List String) : List String :=
  l.insertionSort (fun a b => a ≤ b)

/-- The `cache_payload` dict built in `TaskManager.submit`.  `password`,
`proxy` and `option_file` are already normalized there with `x or ""`. -/
structure CachePayload where
  album_ids : List String
  output_format : String
  quality : Option Int
  encrypt : Bool
  password : String
  compression : Option Int
  proxy : String
  option_file : String
deriving DecidableEq, Repr

/-- Python `x or ""` on an optional string: both a missing value and the
empty string normalize to `""`. -/
def orEmpty : Option String → String
  | some s => s
  | none => ""

/-- tasks.py lines 47-56: the dict passed to `Storage.cache_key`. -/
def submitCachePayload (req : TaskRequest) : CachePayload :=
  { album_ids := pySorted (req.album_ids.map AlbumId.toStr)
    output_format := req.output_format.value
    quality := req.quality
    encrypt := req.encrypt
    password := orEmpty req.password
    compression := req.compression
    proxy := orEmpty req.proxy
    option_file := orEmpty req.option_file }

/-- JSON escaping of one character, as `json.dumps` renders string bodies
(`ensure_ascii=False`: non-ASCII characters stay literal). -/
def jsonEscapeChar (c : Char) : String :=
  if c = '"' then "\\\""
  else if c = '\\' then "\\\\"
  else if c = '\n' then "\\n"
  else if c = '\t' then "\\t"
  else if c = '\r' then "\\r"
  else if c = '\x08' then "\\b"
  else if c = '\x0c' then "\\f"
  else if c.toNat < 32 then
    "\\u00" ++ String.mk [hexDigit (c.toNat / 16), hexDigit (c.toNat % 16)]
  else String.mk [c]

/-- A JSON string literal as `json.dumps` renders it. -/
def jsonStr (s : String) : String :=
  "\"" ++ String.join (s.data.map jsonEscapeChar) ++ "\""

/-- A JSON array of strings with the default `", "` separator. -/
def jsonStrList (l : List String) : String :=
  "[" ++ String.intercalate ", " (l.map jsonStr) ++ "]"

/-- A JSON integer-or-null. -/
def jsonOptInt : Option Int → String
  | none => "null"
  | some n => toString n

/-- A JSON boolean. -/
def jsonBool : Bool → String
  | true => "true"
  | false => "false"

/-- storage.py `Storage.cache_key`: pop the plaintext password, insert
`password_hash = sha256(password).hexdigest()` (the payload built in
`submit` always carries a string password, so the hash is always present),
then `json.dumps(safe, sort_keys=True, ensure_ascii=False)`.  The keys are
rendered in sorted order with the default `", "`/`": "` separators. -/
def scrubbedBlob (p : CachePayload) : String :=
  "\x7b\"album_ids\": " ++ jsonStrList p.album_ids
    ++ ", \"compression\": " ++ jsonOptInt p.compression
    ++ ", \"encrypt\": " ++ jsonBool p.encrypt
    ++ ", \"option_file\": " ++ jsonStr p.option_file
    ++ ", \"output_format\": " ++ jsonStr p.output_format
    ++ ", \"password_hash\": " ++ jsonStr (sha256hex (utf8Bytes p.password))
    ++ ", \"proxy\": " ++ jsonStr p.proxy
    ++ ", \"quality\": " ++ jsonOptInt p.quality ++ "\x7d"

/-- storage.py `Storage.cache_key`: the hex digest of the canonical blob. -/
def Storage.cache_key (p : CachePayload) : String :=
  sha256hex (utf8Bytes (scrubbedBlob p))

/-- The cache key `TaskManager.submit` computes for a request. -/
def computeKey (req : TaskRequest) : String :=
  Storage.cache_key (submitCachePayload req)

/-! ## Storage (src/app/storage.py) -/

/-- storage.py `CacheEntry`. -/
structure CacheEntry where
  key : String
  path : String
  created_at : ℚ
  size : Nat
deriving DecidableEq, Repr

/-- One file in the cache directory, as seen by `cached_artifact`. -/
structure FileEntry where
  name : String
  mtime : ℚ
  size : Nat
deriving DecidableEq, Repr

/-- fnmatch of a file name against the glob pattern "<key>.*": the name
starts with the key followed by a dot. -/
def globMatchKey (key name : String) : Bool :=
  (key ++ ".").data.isPrefixOf name.data

/-- storage.py `Storage.cached_artifact`: if the cache directory exists
(`some files`), return the first file matching `"<key>.*"` together with its
stat data; otherwise `none`.  The directory listing is a snapshot, so the
stat retry loop on `FileNotFoundError` cannot fire in the model. -/
def Storage.cached_artifact (cacheDirPath : String) (files : Option (List FileEntry))
    (key : String) : Option CacheEntry :=
  match files with
  | none => none
  | some fs =>
      (fs.find? (fun f => globMatchKey key f.name)).map
        (fun f => { key := key, path := cacheDirPath ++ "/" ++ f.name,
                    created_at := f.mtime, size := f.size })

/-! ## Task state and the task manager (src/app/tasks.py) -/

/-- The task-state dict stored per task id.  Keys the code never wrote yet
are modelled by `none` / `[]` defaults. -/
structure TaskState where
  task_id : String
  status : TaskStatusEnum
  progress : ℚ
  created_at : ℚ
  updated_at : ℚ
  message : Option String := none
  error : Option String := none
  metadata : List (String × String) := []
  artifact_path : Option String := none
  download_url : Option String := none
  cache_key : Option String := none
  request : Option TaskRequest := none
deriving DecidableEq, Repr

/-- Association-list lookup for string-keyed Python dicts. -/
def dictGet {α : Type} : List (String × α) → String → Option α
  | [], _ => none
  | (k', v') :: rest, k => if k' = k then some v' else dictGet rest k

/-- Association-list assignment for string-keyed Python dicts. -/
def dictSet {α : Type} : List (String × α) → String → α → List (String × α)
  | [], k, v => [(k, v)]
  | (k', v') :: rest, k, v =>
      if k' = k then (k, v) :: rest else (k', v') :: dictSet rest k v

/-- models.py `SubmitResponse`. -/
structure SubmitResponse where
  task_id : String
  status : TaskStatusEnum
  duplicate : Bool
deriving DecidableEq, Repr

/-- The mutable state a `TaskManager` (together with its `Storage`) owns:
the in-memory dedup table, the task-state map, a snapshot of the cache
directory (`none` when it does not exist), and the list of task bodies
handed to `asyncio.create_task` for background execution. -/
structure TMState where
  dedup : List (String × String)
  tasks : List (String × TaskState)
  cacheDirPath : String
  cacheDirFiles : Option (List FileEntry)
  scheduled : List (String × TaskRequest)
deriving DecidableEq, Repr

/-- The fresh state dict `TaskManager._task_state` builds for an unknown
task id (status queued, progress 0.0, empty metadata, no artifact). -/
def defaultTaskState (tid : String) (now : ℚ) : TaskState :=
  { task_id := tid, status := .queued, progress := 0,
    created_at := now, updated_at := now }

/-- tasks.py `TaskManager._task_state`: fetch the stored state, creating and
persisting the default record when none exists. -/
def TaskManager.task_state (st : TMState) (now : ℚ) (tid : String) :
    TaskState × TMState :=
  match dictGet st.tasks tid with
  | some s => (s, st)
  | none =>
      let s := defaultTaskState tid now
      (s, { st with tasks := dictSet st.tasks tid s })

/-- The artifact-cache short-circuit test in `submit` (line 60):
`self.storage.cached_artifact(cache_key) if req.cache else None`. -/
def cacheShortcut (st : TMState) (req : TaskRequest) : Option CacheEntry :=
  if req.cache then
    Storage.cached_artifact st.cacheDirPath st.cacheDirFiles (computeKey req)
  else none

/-- tasks.py `TaskManager.submit`.  `now` models `time.time()` and `freshId`
the `uuid.uuid4().hex` draw.  The three branches mirror the source: artifact
cache hit (synthesize a completed record, mark duplicate, schedule nothing);
in-memory dedup hit (return the registered task id, mark duplicate, change
nothing); otherwise create a queued record, register it under the key, and
schedule the task body. -/
def TaskManager.submit (st : TMState) (now : ℚ) (freshId : String)
    (req : TaskRequest) : SubmitResponse × TMState :=
  let ck := computeKey req
  match cacheShortcut st req with
  | some e =>
      let tid := (dictGet st.dedup ck).getD freshId
      let st1 := { st with dedup := dictSet st.dedup ck tid }
      let p := TaskManager.task_state st1 now tid
      let s' := { p.1 with
        status := .completed
        progress := 1
        updated_at := now
        artifact_path := some e.path }
      (⟨tid, .completed, true⟩, { p.2 with tasks := dictSet p.2.tasks tid s' })
  | none =>
      match dictGet st.dedup ck with
      | some tid =>
          let p := TaskManager.task_state st now tid
          (⟨tid, p.1.status, true⟩, p.2)
      | none =>
          let tid := freshId
          let st1 := { st with dedup := dictSet st.dedup ck tid }
          let p := TaskManager.task_state st1 now tid
          let s' := { p.1 with request := some req, cache_key := some ck }
          (⟨tid, .queued, false⟩,
           { p.2 with
             tasks := dictSet p.2.tasks tid s'
             scheduled := p.2.scheduled ++ [(tid, req)] })

/-- The `except` branch of tasks.py `TaskManager._run_task` (lines 137-146):
mark the task failed with the captured error string.  The dedup table is not
touched on any path of `_run_task`. -/
def TaskManager.run_task_fail (st : TMState) (now : ℚ) (tid : String)
    (err : String) : TMState :=
  let p := TaskManager.task_state st now tid
  { p.2 with
    tasks := dictSet p.2.tasks tid
      { p.1 with status := .failed, error := some err, updated_at := now } }

/-! ## Download parameters (downloader.py `DownloadParams`, built in
tasks.py `_run_task` lines 112-121) -/

/-- downloader.py `DownloadParams` (album ids already stringified). -/
structure DownloadParams where
  album_ids : List String
  output_format : String
  quality : Option Int
  encrypt : Bool
  password : Option String
  compression : Int
  proxy : Option String
  option_file : Option String
deriving DecidableEq, Repr

/-- Python `x or d` on an optional int: both a missing value and an explicit
zero fall back to the default (0 is falsy). -/
def pyOrInt (o : Option Int) (d : Int) : Int :=
  match o with
  | some c => if c = 0 then d else c
  | none => d

/-- `req.proxy if req.proxy is not None else default` — an `is None` test,
so an empty string is kept. -/
def paramProxy (reqProxy defaultProxy : Option String) : Option String :=
  match reqProxy with
  | some p => some p
  | none => defaultProxy

/-- `Path(req.option_file).resolve() if req.option_file else None` — a
truthiness test, so an empty string becomes `None`. -/
def paramOptionFile (f : Option String) : Option String :=
  match f with
  | some s => if s = "" then none else some s
  | none => none

/-- tasks.py lines 112-121: the `DownloadParams` built for `_run_task`.
Note `compression=req.compression or 6` uses Python truthiness. -/
def downloadParamsOf (req : TaskRequest) (defaultProxy : Option String) :
    DownloadParams :=
  { album_ids := req.album_ids.map AlbumId.toStr
    output_format := req.output_format.value
    quality := req.quality
    encrypt := req.encrypt
    password := req.password
    compression := pyOrInt req.compression 6
    proxy := paramProxy req.proxy defaultProxy
    option_file := paramOptionFile req.option_file }

/-! ## Task-record write sites (tasks.py)

Every `set_task_state` write the task manager performs is one of the
mutations below, applied to the previously stored record. -/

/-- The record mutations performed by tasks.py: record creation in
`_task_state`; the request/cache-key snapshot for a new task (`submit`
lines 87-88); the `running` transition (`_run_task` line 97); the progress
callback (`_run_task` lines 104-109); the `completed` update (lines
127-135); the `failed` update (lines 138-144); the cache-hit synthesis
(`submit` lines 66-73); and the lazy `download_url` derivation
(`get_status` lines 154-157). -/
inductive TaskMutation
  | create (tid : String) (now : ℚ)
  | initRequest (req : TaskRequest) (ck : String)
  | runStart (now : ℚ)
  | progressCb (now p : ℚ) (msg : String)
  | complete (now : ℚ) (path : String) (md : List (String × String))
  | fail (now : ℚ) (err : String)
  | cacheHit (now : ℚ) (path : String)
  | deriveUrl (url : String)
deriving DecidableEq, Repr

/-- Apply one tasks.py record mutation.  The progress callback stores
`max(0.0, min(0.99, float(p)))`. -/
def applyMutation : TaskMutation → TaskState → TaskState
  | .create tid now, _ => defaultTaskState tid now
  | .initRequest req ck, s => { s with request := some req, cache_key := some ck }
  | .runStart now, s => { s with status := .running, updated_at := now }
  | .progressCb now p msg, s =>
      { s with
        progress := max 0 (min (99 / 100) p)
        message := some msg
        updated_at := now }
  | .complete now path md, s =>
      { s with
        status := .completed
        progress := 1
        updated_at := now
        artifact_path := some path
        metadata := md }
  | .fail now err, s => { s with status := .failed, error := some err, updated_at := now }
  | .cacheHit now path, s =>
      { s with
        status := .completed
        progress := 1
        updated_at := now
        artifact_path := some path }
  | .deriveUrl url, s => { s with download_url := some url }

/-! ## Per-album locking (downloader.py `Downloader._get_album_lock`,
lines 148-164, and the `with lock:` fetch in `download_and_package`)

`_album_locks` is a class attribute shared process-wide.  The code comments
say "Ensure at most one concurrent download per album within this process"
and "Double-checked locking", but `with threading.Lock():` acquires a lock
object created on the spot, which no other thread can contend on.  The model
below is an interleaving semantics for two threads each executing
`_get_album_lock(aid)` and then `with lock: download`.  Lock objects are
numbered by creation order; acquiring a freshly created lock never blocks,
so the `with threading.Lock()` entry is modelled as an unconditional
transition. -/

/-- Program counter of one thread running `_get_album_lock` + `with lock:`.
`read1` is the unguarded first `get`; `read2` the re-read inside the
(ineffective) guard; `store` publishes a fresh lock; `acquire lk` blocks
until `lk` is free; `fetching lk` is the critical section in which
`jd.download_album` runs. -/
inductive LockPC
  | read1
  | read2
  | store
  | acquire (lk : Nat)
  | fetching (lk : Nat)
  | done
deriving DecidableEq, Repr

/-- Shared state of the two-thread lock model: the `_album_locks` dict, a
fresh-lock counter, the set of held lock identities, and both program
counters. -/
structure LockWorld where
  albumLocks : List (String × Nat)
  freshLock : Nat
  held : List Nat
  pcA : LockPC
  pcB : LockPC
deriving DecidableEq, Repr

/-- One thread-local step of `_get_album_lock(aid)` + `with lock:`,
returning the updated shared components and program counter. -/
def lockThreadStep (aid : String) (locks : List (String × Nat)) (fresh : Nat)
    (held : List Nat) (pc : LockPC) :
    List (String × Nat) × Nat × List Nat × LockPC :=
  match pc with
  | .read1 =>
      match dictGet locks aid with
      | some lk => (locks, fresh, held, .acquire lk)
      | none => (locks, fresh, held, .read2)
  | .read2 =>
      match dictGet locks aid with
      | some lk => (locks, fresh, held, .acquire lk)
      | none => (locks, fresh, held, .store)
  | .store =>
      (dictSet locks aid fresh, fresh + 1, held, .acquire fresh)
  | .acquire lk =>
      if held.contains lk then (locks, fresh, held, .acquire lk)
      else (locks, fresh, lk :: held, .fetching lk)
  | .fetching lk =>
      (locks, fresh, held.erase lk, .done)
  | .done => (locks, fresh, held, .done)

/-- Scheduler step: run one step of thread A (`true`) or thread B
(`false`). -/
def lockStep (aidA aidB : String) (w : LockWorld) (runA : Bool) : LockWorld :=
  if runA then
    let r := lockThreadStep aidA w.albumLocks w.freshLock w.held w.pcA
    { albumLocks := r.1, freshLock := r.2.1, held := r.2.2.1, pcA := r.2.2.2, pcB := w.pcB }
  else
    let r := lockThreadStep aidB w.albumLocks w.freshLock w.held w.pcB
    { albumLocks := r.1, freshLock := r.2.1, held := r.2.2.1, pcA := w.pcA, pcB := r.2.2.2 }

/-- Run a schedule (list of thread choices) from a world. -/
def lockRun (aidA aidB : String) (sched : List Bool) (w : LockWorld) : LockWorld :=
  sched.foldl (lockStep aidA aidB) w

/-- Initial world: no locks created, both threads about to enter
`_get_album_lock`. -/
def lockWorld0 : LockWorld :=
  { albumLocks := [], freshLock := 0, held := [], pcA := .read1, pcB := .read1 }

/-- Whether a thread is inside the critical section (its fetch is active). -/
def LockPC.isFetching : LockPC → Bool
  | .fetching _ => true
  | _ => false

/-! ## Fetch callbacks and the progress trace
(downloader.py `download_and_package`, lines 322-479)

The external fetch collaborator drives `CustomJmDownloader`'s hooks while
`jd.download_album(aid)` runs; each album's hook firings are modelled as a
script of events supplied as input. -/

/-- The info dict passed to `on_image_event`.
`album_id` models `str(info.get("album_id") or "")` (empty when absent). -/
structure ImageEventInfo where
  album_id : String
  image_id : Option String
  page : Option Int
  path : String
  filename : Option String
deriving DecidableEq, Repr

/-- One hook firing during an album download: `on_album_meta` or
`on_image_event` (with stage "after" when `stage_after` is true). -/
inductive FetchEvent
  | albumMeta (album_id : String)
  | image (stage_after : Bool) (info : ImageEventInfo)
deriving DecidableEq, Repr

/-- The progress value a hook firing reports through `progress_cb`:
`on_album_meta` reports 0.1; `on_image_event` returns early when the album
id is empty and otherwise reports 0.2 whenever `image_id` is present
(for both stages). -/
def eventProgress : FetchEvent → Option ℚ
  | .albumMeta _ => some (1 / 10)
  | .image _ info =>
      if info.album_id = "" then none
      else if info.image_id.isSome then some (2 / 10) else none

/-- An image record collected by `on_image_event` for packaging. -/
structure ImageItem where
  path : String
  page : Option Int
  filename : Option String
deriving DecidableEq, Repr

/-- `images_by_album` as accumulated by `on_image_event`: "after" events
with a non-empty album id append an item to that album's list. -/
def imagesByAlbum (events : List FetchEvent) : List (String × List ImageItem) :=
  events.foldl (fun acc ev =>
    match ev with
    | .albumMeta _ => acc
    | .image stage_after info =>
        if info.album_id = "" then acc
        else if stage_after then
          dictSet acc info.album_id
            ((dictGet acc info.album_id).getD []
              ++ [{ path := info.path, page := info.page, filename := info.filename }])
        else acc) []

/-- The marker value `0.05 + 0.4 * idx / max(1, len(album_ids))` reported
just before downloading the album at 0-based position `i`. -/
def markerQ (n i : Nat) : ℚ :=
  1 / 20 + (2 / 5) * ((i : ℚ) + 1) / ((max 1 n : ℕ) : ℚ)

/-- Every `progress_cb(p, msg)` invocation `download_and_package` causes, in
order, tagged with whether it came from a fetch hook (`true`) or from the
milestone calls in the method body (`false`).  Inputs: per-album hook
scripts (the album ids listed in the request paired with the events their
download fires) and whether re-encoding runs (`quality is not None`).  Both
output formats report 0.75 before packaging. -/
def progressReports (albums : List (String × List FetchEvent))
    (quality : Option Int) : List (Bool × ℚ) :=
  let n := albums.length
  (albums.enum.flatMap (fun pr =>
    (false, markerQ n pr.1)
      :: pr.2.2.filterMap (fun ev => (eventProgress ev).map (fun q => (true, q)))))
  ++ [(false, 1 / 2)]
  ++ (if quality.isSome then [(false, 11 / 20)] else [])
  ++ [(false, 3 / 4), (false, 19 / 20)]

/-- The sequence of progress values reported through the callback while the
task runs. -/
def progressTrace (albums : List (String × List FetchEvent))
    (quality : Option Int) : List ℚ :=
  (progressReports albums quality).map (fun r => r.2)

/-- The subsequence of progress values reported by the method body itself
(the per-album markers and the collect/re-encode/package/finalize
milestones), with the fetch-hook reports removed. -/
def milestoneValues (albums : List (String × List FetchEvent))
    (quality : Option Int) : List ℚ :=
  ((progressReports albums quality).filter (fun r => !r.1)).map (fun r => r.2)

/-! ## Packaging (downloader.py lines 386-479 and `_make_zip`/`_make_pdf`) -/

/-- `pyzipper.ZIP_LZMA if compression >= 7 else pyzipper.ZIP_DEFLATED`. -/
inductive CompressionAlg
  | lzma
  | deflated
deriving DecidableEq, Repr

/-- Python truthiness of the optional password (`if password:`): both `None`
and the empty string disable encryption. -/
def pwTruthy : Option String → Bool
  | some p => decide (p ≠ "")
  | none => false

/-- One file written into the archive: its name inside the archive and its
source path. -/
structure ZipEntry where
  arcname : String
  src : String
deriving DecidableEq, Repr

/-- The archive `_make_zip` produces: the written entries, whether AES-256
encryption was applied, and the compression algorithm chosen from the
level.  `pyzipper.AESZipFile` accepts an empty entry set, producing an
empty archive without raising. -/
structure ZipArtifact where
  entries : List ZipEntry
  encrypted : Bool
  alg : CompressionAlg
deriving DecidableEq, Repr

/-- downloader.py `Downloader._make_zip`. -/
def make_zip (entries : List ZipEntry) (password : Option String)
    (compression : Int) : ZipArtifact :=
  { entries := entries
    encrypted := pwTruthy password
    alg := if compression ≥ 7 then .lzma else .deflated }

/-- The document `_make_pdf` produces: the ordered pages handed to the
(external, black-box) image-to-PDF converter, and whether password
encryption was applied (`if not password:` writes the plain bytes). -/
structure PdfArtifact where
  pages : List String
  encrypted : Bool
deriving DecidableEq, Repr

/-- downloader.py `Downloader._make_pdf` (conversion itself is external). -/
def make_pdf (images : List String) (password : Option String) : PdfArtifact :=
  { pages := images, encrypted := pwTruthy password }

/-- `str(x.get("filename") or x.get("path"))` in the sort key: a missing or
empty filename falls back to the path. -/
def itemFileKey (it : ImageItem) : String :=
  match it.filename with
  | some f => if f = "" then it.path else f
  | none => it.path

/-- 0/1 encoding of a Python bool inside a comparison tuple. -/
def boolNat (b : Bool) : Nat := if b then 1 else 0

/-- The sort key tuple `(page is None, page or 0, str(filename or path))`
compared lexicographically. -/
def itemKeyLE (a b : ImageItem) : Bool :=
  let a1 := boolNat a.page.isNone
  let b1 := boolNat b.page.isNone
  let a2 := pyOrInt a.page 0
  let b2 := pyOrInt b.page 0
  if a1 ≠ b1 then decide (a1 < b1)
  else if a2 ≠ b2 then decide (a2 < b2)
  else decide (itemFileKey a ≤ itemFileKey b)

/-- `items.sort(key=...)` — Python's stable sort under the tuple key
(modelled by insertion sort, which is also stable). -/
def sortItems (items : List ImageItem) : List ImageItem :=
  items.insertionSort (fun a b => itemKeyLE a b = true)

/-- Lines 389-398: the resolved ordered image list.  Per album, the
collected items are sorted and their paths appended; the comprehension's
`if it.get("path")` tests a `pathlib.Path`, which is always truthy, so
nothing is filtered.  If the result is empty, fall back to the directory
scan of the shared download base (`scanned`, an external-filesystem
input that `_collect_images` returns sorted). -/
def selectedImages (album_ids : List String)
    (iba : List (String × List ImageItem)) (scanned : List String) :
    List String :=
  let sel := album_ids.flatMap (fun aid =>
    (sortItems ((dictGet iba aid).getD [])).map (fun it => it.path))
  if sel.isEmpty then scanned else sel

/-- Python `str` of a `Path`'s final component (`Path(x).name`). -/
def pathName (s : String) : String :=
  (s.splitOn "/").getLastD s

/-- `f"\x7bindex:05d\x7d"` zero-padding. -/
def natPad5 (n : Nat) : String :=
  let s := toString n
  String.mk (List.replicate (5 - s.length) '0') ++ s

/-- `Path(it.get('filename') or src.name)` in the staging loop. -/
def itemLinkBase (it : ImageItem) : String :=
  match it.filename with
  | some f => if f = "" then pathName it.path else f
  | none => pathName it.path

/-- Lines 426-450: the hardlink staging loop for the zip-without-re-encode
path.  Iterates the raw `images_by_album` lists (unsorted), skips items
whose source file does not exist, and numbers the staged names with a
running index starting at 1.  `existing` is the set of paths present on
disk. -/
def stageEntries (album_ids : List String)
    (iba : List (String × List ImageItem)) (existing : List String) :
    List ZipEntry :=
  (album_ids.foldl (fun acc aid =>
    ((dictGet iba aid).getD []).foldl (fun ac it =>
      if existing.contains it.path then
        (ac.1 ++ [{ arcname := "album_" ++ aid ++ "/" ++ natPad5 ac.2 ++ "_"
                      ++ pathName (itemLinkBase it)
                    src := it.path }], ac.2 + 1)
      else ac) acc) (([] : List ZipEntry), 1)).1

/-- The re-encoded staging files `_reencode_images` produces for the
selected list: `00001.jpg`, `00002.jpg`, ... under the staging directory
(on a per-image re-encode failure the original bytes are copied to the same
destination name, so the produced file list is the same either way). -/
def reencodedFiles (staging : String) (selected : List String) : List String :=
  (List.range selected.length).map (fun i => staging ++ "/" ++ natPad5 (i + 1) ++ ".jpg")

/-- The effective password handed to `_make_zip`/`_make_pdf`:
`params.password if params.encrypt else None` (lines 422, 454, 466).
No password is ever generated. -/
def packagingPassword (params : DownloadParams) : Option String :=
  if params.encrypt then params.password else none

/-- The zip packaging path of `download_and_package` (lines 400-460): with
re-encoding, zip the staged re-encoded tree; without, zip the hardlink
stage. -/
def packageZip (params : DownloadParams) (iba : List (String × List ImageItem))
    (scanned existing : List String) : ZipArtifact :=
  let selected := selectedImages params.album_ids iba scanned
  match params.quality with
  | some _ =>
      let staged := reencodedFiles "_reencoded" selected
      make_zip (staged.map (fun nm => { arcname := pathName nm, src := nm }))
        (packagingPassword params) params.compression
  | none =>
      make_zip (stageEntries params.album_ids iba existing)
        (packagingPassword params) params.compression

/-- The zip packaging path as a fallible computation.  The path contains no
`raise` and no empty-set check: directory creation, staging and the archive
write (also with zero entries) all succeed, so the outcome is always
`Except.ok`. -/
def packageZipOutcome (params : DownloadParams)
    (iba : List (String × List ImageItem)) (scanned existing : List String) :
    Except String ZipArtifact :=
  Except.ok (packageZip params iba scanned existing)

/-- The pdf packaging path (lines 461-468): feed the resolved (optionally
re-encoded) ordered list to `_make_pdf`. -/
def packagePdf (params : DownloadParams) (iba : List (String × List ImageItem))
    (scanned : List String) : PdfArtifact :=
  let selected := selectedImages params.album_ids iba scanned
  match params.quality with
  | some _ => make_pdf (reencodedFiles "_reencoded" selected) (packagingPassword params)
  | none => make_pdf selected (packagingPassword params)

/-! ## Helper lemmas -/

theorem dictGet_dictSet_self {α : Type} (l : List (String × α)) (k : String) (v : α) :
    dictGet (dictSet l k v) k = some v := by
  induction l with
  | nil => simp [dictSet, dictGet]
  | cons h t ih =>
      obtain ⟨k', v'⟩ := h
      by_cases hk : k' = k
      · subst hk
        simp [dictSet, dictGet]
      · simp [dictSet, dictGet, hk, ih]

theorem dictGet_dictSet_ne {α : Type} (l : List (String × α)) (k k' : String)
    (v : α) (h : k' ≠ k) : dictGet (dictSet l k v) k' = dictGet l k' := by
  induction l with
  | nil => simp [dictSet, dictGet, Ne.symm h]
  | cons hd t ih =>
      obtain ⟨k₀, v₀⟩ := hd
      by_cases hk : k₀ = k
      · subst hk
        simp [dictSet, dictGet, Ne.symm h]
      · by_cases hk' : k₀ = k'
        · subst hk'
          simp [dictSet, dictGet, hk]
        · simp [dictSet, dictGet, hk, hk', ih]

theorem task_state_dedup (st : TMState) (now : ℚ) (tid : String) :
    (TaskManager.task_state st now tid).2.dedup = st.dedup := by
  cases h : dictGet st.tasks tid <;> simp [TaskManager.task_state, h]

theorem task_state_scheduled (st : TMState) (now : ℚ) (tid : String) :
    (TaskManager.task_state st now tid).2.scheduled = st.scheduled := by
  cases h : dictGet st.tasks tid <;> simp [TaskManager.task_state, h]

theorem isPrefixOf_append_chars (l r : List Char) : l.isPrefixOf (l ++ r) = true := by
  induction l with
  | nil => simp [List.isPrefixOf]
  | cons a t ih => simp [List.isPrefixOf, ih]

theorem globMatchKey_key_dot_append (key tail : String) :
    globMatchKey key (key ++ "." ++ tail) = true := by
  unfold globMatchKey
  rw [String.data_append]
  exact isPrefixOf_append_chars _ _

theorem append_dot_zip (key : String) : key ++ ".zip" = key ++ "." ++ "zip" := by
  have h : ("." : String) ++ "zip" = ".zip" := by decide
  rw [String.append_assoc, h]

theorem pySorted_eq_of_perm {l₁ l₂ : List String} (h : l₁.Perm l₂) :
    pySorted l₁ = pySorted l₂ := by
  apply List.eq_of_perm_of_sorted (r := fun a b : String => a ≤ b)
  · exact (List.perm_insertionSort _ l₁).trans (h.trans (List.perm_insertionSort _ l₂).symm)
  · exact List.sorted_insertionSort _ l₁
  · exact List.sorted_insertionSort _ l₂

/-! ## Claim theorems -/

/-- C1: for every request with the cache-use flag enabled, if `submit` runs
when the artifact store already holds an entry for the request's key, it
returns status `completed` with `duplicate = true`, the stored task record
has progress 1.0 and its artifact path set to the cached entry's path, and
no background task body is scheduled (fetches and resource-lock
acquisitions happen only inside scheduled task bodies, so none occur). -/
theorem C1_cache_hit_short_circuit
    (st : TMState) (now : ℚ) (freshId : String) (req : TaskRequest)
    (e : CacheEntry)
    (hc : req.cache = true)
    (he : Storage.cached_artifact st.cacheDirPath st.cacheDirFiles (computeKey req)
          = some e) :
    (TaskManager.submit st now freshId req).1.status = .completed ∧
    (TaskManager.submit st now freshId req).1.duplicate = true ∧
    (dictGet (TaskManager.submit st now freshId req).2.tasks
        (TaskManager.submit st now freshId req).1.task_id).map TaskState.status
      = some .completed ∧
    (dictGet (TaskManager.submit st now freshId req).2.tasks
        (TaskManager.submit st now freshId req).1.task_id).map TaskState.progress
      = some 1 ∧
    (dictGet (TaskManager.submit st now freshId req).2.tasks
        (TaskManager.submit st now freshId req).1.task_id).map TaskState.artifact_path
      = some (some e.path) ∧
    (TaskManager.submit st now freshId req).2.scheduled = st.scheduled := by
  have hcs : cacheShortcut st req = some e := by
    simp [cacheShortcut, hc, he]
  cases hts : dictGet st.tasks ((dictGet st.dedup (computeKey req)).getD freshId) with
  | none =>
      refine ⟨?_, ?_, ?_, ?_, ?_, ?_⟩ <;>
        simp [TaskManager.submit, hcs, TaskManager.task_state, hts,
              dictGet_dictSet_self]
  | some s =>
      refine ⟨?_, ?_, ?_, ?_, ?_, ?_⟩ <;>
        simp [TaskManager.submit, hcs, TaskManager.task_state, hts,
              dictGet_dictSet_self]

/-- Concrete request for the C1 witness: album "123", zip output, defaults,
cache allowed. -/
def reqW1 : TaskRequest :=
  { album_ids := [.str "123"]
    output_format := .zip
    quality := none
    encrypt := false
    password := none
    compression := some 6
    cache := true
    proxy := none
    option_file := none }

/-- A cache-directory file published under `reqW1`'s key. -/
def fileW1 : FileEntry :=
  { name := computeKey reqW1 ++ ".zip", mtime := 0, size := 7 }

/-- Concrete manager state for the C1 witness: empty dedup table and task
map, cache directory holding `fileW1`. -/
def stW1 : TMState :=
  { dedup := []
    tasks := []
    cacheDirPath := "data/cache"
    cacheDirFiles := some [fileW1]
    scheduled := [] }

/-- The cache entry `cached_artifact` finds in `stW1`. -/
def entryW1 : CacheEntry :=
  { key := computeKey reqW1
    path := "data/cache" ++ "/" ++ fileW1.name
    created_at := 0
    size := 7 }

/-- Witness for C1 at the concrete state `stW1` and request `reqW1`. -/
theorem C1_witness :
    (TaskManager.submit stW1 0 "task-1" reqW1).1.status = .completed ∧
    (TaskManager.submit stW1 0 "task-1" reqW1).1.duplicate = true ∧
    (dictGet (TaskManager.submit stW1 0 "task-1" reqW1).2.tasks
        (TaskManager.submit stW1 0 "task-1" reqW1).1.task_id).map TaskState.status
      = some .completed ∧
    (dictGet (TaskManager.submit stW1 0 "task-1" reqW1).2.tasks
        (TaskManager.submit stW1 0 "task-1" reqW1).1.task_id).map TaskState.progress
      = some 1 ∧
    (dictGet (TaskManager.submit stW1 0 "task-1" reqW1).2.tasks
        (TaskManager.submit stW1 0 "task-1" reqW1).1.task_id).map TaskState.artifact_path
      = some (some entryW1.path) ∧
    (TaskManager.submit stW1 0 "task-1" reqW1).2.scheduled = stW1.scheduled := by
  have hg : globMatchKey (computeKey reqW1) fileW1.name = true := by
    show globMatchKey (computeKey reqW1) (computeKey reqW1 ++ ".zip") = true
    rw [append_dot_zip]
    exact globMatchKey_key_dot_append _ _
  have he : Storage.cached_artifact stW1.cacheDirPath stW1.cacheDirFiles
      (computeKey reqW1) = some entryW1 := by
    show Storage.cached_artifact "data/cache" (some [fileW1]) (computeKey reqW1)
      = some entryW1
    have hf : List.find? (fun f => globMatchKey (computeKey reqW1) f.name) [fileW1]
        = some fileW1 := List.find?_cons_of_pos _ hg
    simp [Storage.cached_artifact, hf]
    rfl
  exact C1_cache_hit_short_circuit stW1 0 "task-1" reqW1 entryW1 rfl he

/-- C2: if `submit` runs while the dedup table already maps the request's
key to a task id (and the artifact cache does not short-circuit the call),
it returns exactly that task id with `duplicate = true` and the manager
state is unchanged — no new task record, no scheduled background work.  The
hypothesis `ht` states the registered task's record exists, which `submit`
established when it registered the key. -/
theorem C2_dedup_returns_registered_task
    (st : TMState) (now : ℚ) (freshId : String) (req : TaskRequest)
    (tid : String) (s : TaskState)
    (hc : cacheShortcut st req = none)
    (hd : dictGet st.dedup (computeKey req) = some tid)
    (ht : dictGet st.tasks tid = some s) :
    TaskManager.submit st now freshId req = (⟨tid, s.status, true⟩, st) := by
  simp [TaskManager.submit, hc, hd, TaskManager.task_state, ht]

/-- Concrete request for the C2 witness. -/
def reqW2 : TaskRequest :=
  { album_ids := [.str "777"]
    output_format := .pdf
    quality := none
    encrypt := false
    password := none
    compression := some 6
    cache := true
    proxy := none
    option_file := none }

/-- The running record of the first submission in the C2 witness. -/
def stateW2 : TaskState :=
  { defaultTaskState "task-0" 0 with status := .running }

/-- Concrete manager state for the C2 witness: the dedup table already maps
`reqW2`'s key to "task-0", whose record is running; the cache directory
does not exist. -/
def stW2 : TMState :=
  { dedup := [(computeKey reqW2, "task-0")]
    tasks := [("task-0", stateW2)]
    cacheDirPath := "data/cache"
    cacheDirFiles := none
    scheduled := [] }

/-- Witness for C2 at the concrete state `stW2` and request `reqW2`. -/
theorem C2_witness :
    TaskManager.submit stW2 1 "task-fresh" reqW2
      = (⟨"task-0", stateW2.status, true⟩, stW2) := by
  have hc : cacheShortcut stW2 reqW2 = none := rfl
  have hd : dictGet stW2.dedup (computeKey reqW2) = some "task-0" := by
    simp [stW2, dictGet]
  have ht : dictGet stW2.tasks "task-0" = some stateW2 := by
    simp [stW2, dictGet]
  exact C2_dedup_returns_registered_task stW2 1 "task-fresh" reqW2 "task-0" stateW2
    hc hd ht

/-- C10: no operation removes or rebinds a dedup-table entry: `submit`
preserves every existing binding on all three branches, `_run_task`'s
failure path never touches the table, and resubmitting a request whose key
maps to a `failed` task (with no cached artifact) returns that failed task
id with `duplicate = true` instead of starting a retry, leaving the state
unchanged. -/
theorem C10_dedup_sticky :
    (∀ (st : TMState) (now : ℚ) (freshId : String) (req : TaskRequest)
        (k t : String), dictGet st.dedup k = some t →
        dictGet (TaskManager.submit st now freshId req).2.dedup k = some t) ∧
    (∀ (st : TMState) (now : ℚ) (tid err : String),
        (TaskManager.run_task_fail st now tid err).dedup = st.dedup) ∧
    (∀ (st : TMState) (now : ℚ) (freshId : String) (req : TaskRequest)
        (tid : String) (s : TaskState),
        cacheShortcut st req = none →
        dictGet st.dedup (computeKey req) = some tid →
        dictGet st.tasks tid = some s → s.status = .failed →
        TaskManager.submit st now freshId req = (⟨tid, .failed, true⟩, st)) := by
  refine ⟨?_, ?_, ?_⟩
  · intro st now freshId req k t h
    cases hcs : cacheShortcut st req with
    | some e =>
        simp only [TaskManager.submit, hcs]
        rw [task_state_dedup]
        by_cases hk : k = computeKey req
        · subst hk
          rw [h]
          simpa using dictGet_dictSet_self st.dedup (computeKey req) t
        · rw [dictGet_dictSet_ne _ _ _ _ hk]
          exact h
    | none =>
        cases hd : dictGet st.dedup (computeKey req) with
        | some tid =>
            simp only [TaskManager.submit, hcs, hd]
            rw [task_state_dedup]
            exact h
        | none =>
            have hk : k ≠ computeKey req := by
              intro hkk
              rw [hkk, hd] at h
              exact Option.noConfusion h
            simp only [TaskManager.submit, hcs, hd]
            rw [task_state_dedup]
            rw [dictGet_dictSet_ne _ _ _ _ hk]
            exact h
  · intro st now tid err
    simp only [TaskManager.run_task_fail]
    rw [task_state_dedup]
  · intro st now freshId req tid s hc hd ht hfail
    simp [TaskManager.submit, hc, hd, TaskManager.task_state, ht, hfail]

/-- Concrete request for the C10 witness. -/
def reqW10 : TaskRequest :=
  { album_ids := [.str "888"]
    output_format := .zip
    quality := none
    encrypt := false
    password := none
    compression := some 6
    cache := true
    proxy := none
    option_file := none }

/-- The failed record of the earlier attempt in the C10 witness. -/
def stateW10 : TaskState :=
  { defaultTaskState "task-f" 0 with status := .failed, error := some "boom" }

/-- Concrete manager state for the C10 witness: the dedup table maps
`reqW10`'s key to the failed task "task-f"; no cache directory. -/
def stW10 : TMState :=
  { dedup := [(computeKey reqW10, "task-f")]
    tasks := [("task-f", stateW10)]
    cacheDirPath := "data/cache"
    cacheDirFiles := none
    scheduled := [] }

/-- Witness for C10 at the concrete state `stW10`. -/
theorem C10_witness :
    dictGet (TaskManager.submit stW10 2 "task-n" reqW10).2.dedup
      (computeKey reqW10) = some "task-f" ∧
    (TaskManager.run_task_fail stW10 2 "task-f" "boom").dedup = stW10.dedup ∧
    TaskManager.submit stW10 2 "task-n" reqW10 = (⟨"task-f", .failed, true⟩, stW10) := by
  have hd : dictGet stW10.dedup (computeKey reqW10) = some "task-f" := by
    simp [stW10, dictGet]
  have ht : dictGet stW10.tasks "task-f" = some stateW10 := by
    simp [stW10, dictGet]
  exact ⟨C10_dedup_sticky.1 stW10 2 "task-n" reqW10 (computeKey reqW10) "task-f" hd,
         C10_dedup_sticky.2.1 stW10 2 "task-f" "boom",
         C10_dedup_sticky.2.2 stW10 2 "task-n" reqW10 "task-f" stateW10 rfl hd ht rfl⟩

/-- Two optional raw field values that differ only as omitted-versus-
explicit-default (pydantic fills the declared default for an omitted
field). -/
def fieldDefaulted {α : Type} (d : α) (x y : Option α) : Prop :=
  x = y ∨ (x = none ∧ y = some d) ∨ (x = some d ∧ y = none)

instance {α : Type} [DecidableEq α] (d : α) (x y : Option α) :
    Decidable (fieldDefaulted d x y) := by
  unfold fieldDefaulted
  infer_instance

/-- Two raw requests that differ only in omitted-versus-explicit-default
field values (defaults as declared in models.py `TaskRequest`). -/
def rawDefaultEquiv (r r' : RawRequest) : Prop :=
  r.album_ids = r'.album_ids ∧
  fieldDefaulted .zip r.output_format r'.output_format ∧
  fieldDefaulted none r.quality r'.quality ∧
  fieldDefaulted false r.encrypt r'.encrypt ∧
  fieldDefaulted none r.password r'.password ∧
  fieldDefaulted (some 6) r.compression r'.compression ∧
  fieldDefaulted true r.cache r'.cache ∧
  fieldDefaulted none r.proxy r'.proxy ∧
  fieldDefaulted none r.option_file r'.option_file

instance (r r' : RawRequest) : Decidable (rawDefaultEquiv r r') := by
  unfold rawDefaultEquiv
  infer_instance

theorem fieldDefaulted_getD {α : Type} {d : α} {x y : Option α}
    (h : fieldDefaulted d x y) : x.getD d = y.getD d := by
  rcases h with h | ⟨h1, h2⟩ | ⟨h1, h2⟩
  · rw [h]
  · rw [h1, h2]
    rfl
  · rw [h1, h2]
    rfl

/-- C5: the cache key is a pure function of the normalized payload (first
conjunct: requests with equal normalized payloads get equal keys, so the
key depends on nothing else; determinism is inherent, the embedding being a
function); reordering the resource ids leaves the key unchanged (second
conjunct); and two raw requests differing only in omitted-versus-explicit-
default fields validate to the same request and hence the same key (third
conjunct). -/
theorem C5_cache_key_invariance :
    (∀ r r' : TaskRequest, submitCachePayload r = submitCachePayload r' →
        computeKey r = computeKey r') ∧
    (∀ (r : TaskRequest) (ids : List AlbumId), r.album_ids.Perm ids →
        computeKey { r with album_ids := ids } = computeKey r) ∧
    (∀ raw raw' : RawRequest, rawDefaultEquiv raw raw' →
        validateRequest raw = validateRequest raw' ∧
        (validateRequest raw).map computeKey
          = (validateRequest raw').map computeKey) := by
  refine ⟨?_, ?_, ?_⟩
  · intro r r' h
    exact congrArg Storage.cache_key h
  · intro r ids h
    have hp : submitCachePayload { r with album_ids := ids }
        = submitCachePayload r := by
      simp only [submitCachePayload]
      rw [pySorted_eq_of_perm ((h.map AlbumId.toStr).symm)]
    exact congrArg Storage.cache_key hp
  · intro raw raw' h
    obtain ⟨hids, hof, hq, he, hp, hcomp, hca, hpr, hofile⟩ := h
    have hv : validateRequest raw = validateRequest raw' := by
      simp only [validateRequest, hids, fieldDefaulted_getD hof,
        fieldDefaulted_getD hq, fieldDefaulted_getD he, fieldDefaulted_getD hp,
        fieldDefaulted_getD hcomp, fieldDefaulted_getD hca,
        fieldDefaulted_getD hpr, fieldDefaulted_getD hofile]
    exact ⟨hv, by rw [hv]⟩

/-- C5 witness request: explicit empty-string password. -/
def reqW5a : TaskRequest :=
  { album_ids := [.str "123"]
    output_format := .zip
    quality := none
    encrypt := false
    password := some ""
    compression := some 6
    cache := true
    proxy := none
    option_file := none }

/-- C5 witness request: like `reqW5a` with the password absent (both
normalize to the empty string in the payload). -/
def reqW5b : TaskRequest :=
  { reqW5a with password := none }

/-- C5 witness request with two album ids in one order. -/
def reqW5d : TaskRequest :=
  { reqW5a with album_ids := [.str "123", .int 7] }

/-- C5 witness raw request with every optional field omitted. -/
def rawW5a : RawRequest :=
  { album_ids := .one (.str "5")
    output_format := none
    quality := none
    encrypt := none
    password := none
    compression := none
    cache := none
    proxy := none
    option_file := none }

/-- C5 witness raw request with every default spelled out explicitly. -/
def rawW5b : RawRequest :=
  { album_ids := .one (.str "5")
    output_format := some .zip
    quality := some none
    encrypt := some false
    password := some none
    compression := some (some 6)
    cache := some true
    proxy := some none
    option_file := some none }

/-- Witness for C5 at concrete requests. -/
theorem C5_witness :
    computeKey reqW5a = computeKey reqW5b ∧
    computeKey { reqW5d with album_ids := [.int 7, .str "123"] }
      = computeKey reqW5d ∧
    validateRequest rawW5a = validateRequest rawW5b ∧
    (validateRequest rawW5a).map computeKey
      = (validateRequest rawW5b).map computeKey := by
  have h2 := C5_cache_key_invariance.2.2 rawW5a rawW5b (by decide)
  exact ⟨C5_cache_key_invariance.1 reqW5a reqW5b rfl,
         C5_cache_key_invariance.2.1 reqW5d [.int 7, .str "123"] (by decide),
         h2.1, h2.2⟩

/-- C6: every progress value the `_run_task` progress callback writes lies
in [0, 0.99] (the callback clamps with `max(0.0, min(0.99, p))`), and
across all record mutations tasks.py performs, any mutation whose result
has progress exactly 1 either set status `completed` in that same mutation
or left the stored progress untouched — progress is written to 1.0 only at
the `completed` transitions (`_run_task` completion and the cache-hit
synthesis). -/
theorem C6_progress_clamped_and_one_only_at_completed :
    (∀ (s : TaskState) (now p : ℚ) (msg : String),
        0 ≤ (applyMutation (.progressCb now p msg) s).progress ∧
        (applyMutation (.progressCb now p msg) s).progress ≤ 99 / 100) ∧
    (∀ (m : TaskMutation) (s : TaskState),
        (applyMutation m s).progress = 1 →
        (applyMutation m s).status = .completed ∨
        (applyMutation m s).progress = s.progress) := by
  constructor
  · intro s now p msg
    constructor
    · exact le_max_left 0 _
    · exact max_le (by norm_num) (min_le_left _ _)
  · intro m s
    cases m with
    | create tid now =>
        intro h
        simp [applyMutation, defaultTaskState] at h
    | initRequest req ck => intro h; exact Or.inr rfl
    | runStart now => intro h; exact Or.inr rfl
    | progressCb now p msg =>
        intro h
        exfalso
        have hle : (applyMutation (.progressCb now p msg) s).progress ≤ 99 / 100 :=
          max_le (by norm_num) (min_le_left _ _)
        rw [h] at hle
        norm_num at hle
    | complete now path md => intro h; exact Or.inl rfl
    | fail now err => intro h; exact Or.inr rfl
    | cacheHit now path => intro h; exact Or.inl rfl
    | deriveUrl url => intro h; exact Or.inr rfl

/-- Witness for C6: the clamp bounds at a concrete out-of-range input, and
the 1.0-only-at-completed property at a concrete `completed` mutation. -/
theorem C6_witness :
    (0 ≤ (applyMutation (.progressCb 3 (7 / 4) "zip") (defaultTaskState "t" 0)).progress ∧
     (applyMutation (.progressCb 3 (7 / 4) "zip") (defaultTaskState "t" 0)).progress
       ≤ 99 / 100) ∧
    ((applyMutation (.complete 4 "data/cache/k.zip" []) (defaultTaskState "t" 0)).status
        = .completed ∨
     (applyMutation (.complete 4 "data/cache/k.zip" []) (defaultTaskState "t" 0)).progress
        = (defaultTaskState "t" 0).progress) :=
  ⟨C6_progress_clamped_and_one_only_at_completed.1 (defaultTaskState "t" 0) 3 (7 / 4) "zip",
   C6_progress_clamped_and_one_only_at_completed.2
     (.complete 4 "data/cache/k.zip" []) (defaultTaskState "t" 0) rfl⟩

/-- C3 (refuting run): both threads request album "123" starting from a
state with no lock for it.  Interleaving the two executions of
`_get_album_lock` step by step (both first reads see no lock, both re-reads
inside the ineffective `with threading.Lock()` guard still see no lock,
then each creates and acquires its own lock object) leaves BOTH threads
inside `jd.download_album("123")` simultaneously: two fetches of the same
resource id are concurrently active, contradicting the claimed mutual
exclusion (and the code's own comment "Ensure at most one concurrent
download per album within this process"). -/
theorem C3_concurrent_double_fetch :
    (lockRun "123" "123" [true, false, true, false, true, false, true, false]
        lockWorld0).pcA.isFetching = true ∧
    (lockRun "123" "123" [true, false, true, false, true, false, true, false]
        lockWorld0).pcB.isFetching = true ∧
    (lockRun "123" "123" [true, false, true, false, true, false, true, false]
        lockWorld0).held = [1, 0] := by
  refine ⟨rfl, rfl, rfl⟩

/-- Sanity check of the lock model: when the two executions do not overlap
(thread A finishes before thread B starts), only one lock object is ever
created, B reuses it, and both complete. -/
theorem lock_sequential_reuse :
    (lockRun "123" "123"
        [true, true, true, true, true, false, false, false, false]
        lockWorld0).freshLock = 1 ∧
    (lockRun "123" "123"
        [true, true, true, true, true, false, false, false, false]
        lockWorld0).pcA = .done ∧
    (lockRun "123" "123"
        [true, true, true, true, true, false, false, false, false]
        lockWorld0).pcB = .done := by
  refine ⟨rfl, rfl, rfl⟩

/-- Concrete request refuting C4: `encrypt = true`, no password. -/
def reqC4 : TaskRequest :=
  { album_ids := [.str "123"]
    output_format := .pdf
    quality := none
    encrypt := true
    password := none
    compression := some 6
    cache := true
    proxy := none
    option_file := none }

/-- C4 counterexample: for `encrypt=true` with no password supplied, no
password is generated anywhere in the pipeline — tasks.py passes
`password=req.password` (None) into `DownloadParams`, packaging hands
`params.password if params.encrypt else None` (still None) to the
packagers, and both `_make_zip` and `_make_pdf` skip their encryption
branches, producing an unencrypted artifact.  This refutes the claims that
a password is generated per policy, that the artifact requires it, and that
it is retrievable from task state. -/
theorem C4_counterexample :
    (downloadParamsOf reqC4 none).encrypt = true ∧
    (downloadParamsOf reqC4 none).password = none ∧
    packagingPassword (downloadParamsOf reqC4 none) = none ∧
    (packagePdf (downloadParamsOf reqC4 none) [] ["a/1.jpg"]).encrypted = false ∧
    (packageZip (downloadParamsOf reqC4 none) [] ["a/1.jpg"] ["a/1.jpg"]).encrypted
      = false := by
  refine ⟨rfl, rfl, rfl, rfl, rfl⟩

/-- C4 amended: for every request with `encrypt = true` and no password,
no password is generated — the effective packaging password is `None`, the
encryption branches of both packagers are skipped, and the artifact is
produced unencrypted (so there is no generated password to recover from
task state). -/
theorem C4_no_password_generated
    (req : TaskRequest) (defaultProxy : Option String)
    (he : req.encrypt = true) (hp : req.password = none) :
    packagingPassword (downloadParamsOf req defaultProxy) = none ∧
    (∀ (iba : List (String × List ImageItem)) (scanned : List String),
        (packagePdf (downloadParamsOf req defaultProxy) iba scanned).encrypted
          = false) ∧
    (∀ (iba : List (String × List ImageItem)) (scanned existing : List String),
        (packageZip (downloadParamsOf req defaultProxy) iba scanned existing).encrypted
          = false) := by
  have hpp : packagingPassword (downloadParamsOf req defaultProxy) = none := by
    simp [packagingPassword, downloadParamsOf, he, hp]
  refine ⟨hpp, ?_, ?_⟩
  · intro iba scanned
    cases hq : req.quality <;>
      simp [packagePdf, make_pdf, downloadParamsOf, hq, hpp, pwTruthy] <;>
      simp [packagingPassword, downloadParamsOf, he, hp, pwTruthy]
  · intro iba scanned existing
    cases hq : req.quality <;>
      simp [packageZip, make_zip, downloadParamsOf, hq, hpp, pwTruthy] <;>
      simp [packagingPassword, downloadParamsOf, he, hp, pwTruthy]

/-- Witness for the amended C4 at the concrete request `reqC4`. -/
theorem C4_witness :
    packagingPassword (downloadParamsOf reqC4 none) = none ∧
    (∀ (iba : List (String × List ImageItem)) (scanned : List String),
        (packagePdf (downloadParamsOf reqC4 none) iba scanned).encrypted = false) ∧
    (∀ (iba : List (String × List ImageItem)) (scanned existing : List String),
        (packageZip (downloadParamsOf reqC4 none) iba scanned existing).encrypted
          = false) :=
  C4_no_password_generated reqC4 none rfl rfl

/-- The output-format dispatch of `download_and_package` (line 413):
`if params.output_format == "zip"` packages an archive, else a document. -/
def packageArtifact (params : DownloadParams)
    (iba : List (String × List ImageItem)) (scanned existing : List String) :
    ZipArtifact ⊕ PdfArtifact :=
  if params.output_format = "zip" then
    Sum.inl (packageZip params iba scanned existing)
  else
    Sum.inr (packagePdf params iba scanned)

theorem sortItems_eq_nil {l : List ImageItem} (h : sortItems l = []) : l = [] := by
  have hp : (sortItems l).Perm l := List.perm_insertionSort _ l
  rw [h] at hp
  exact (hp.symm).eq_nil

theorem selectedImages_parts {aids : List String}
    {iba : List (String × List ImageItem)} {scanned : List String}
    (h : selectedImages aids iba scanned = []) :
    aids.flatMap (fun aid =>
      (sortItems ((dictGet iba aid).getD [])).map (fun it => it.path)) = [] := by
  simp only [selectedImages] at h
  by_cases hE : (aids.flatMap (fun aid =>
      (sortItems ((dictGet iba aid).getD [])).map (fun it => it.path))).isEmpty
  · exact List.isEmpty_iff.mp hE
  · rw [if_neg hE] at h
    exact h

theorem stageEntries_eq_nil (aids : List String)
    (iba : List (String × List ImageItem)) (existing : List String)
    (h : ∀ aid ∈ aids, (dictGet iba aid).getD [] = ([] : List ImageItem)) :
    stageEntries aids iba existing = [] := by
  suffices hgen : ∀ acc : List ZipEntry × Nat,
      aids.foldl (fun acc aid =>
        ((dictGet iba aid).getD []).foldl (fun ac it =>
          if existing.contains it.path then
            (ac.1 ++ [{ arcname := "album_" ++ aid ++ "/" ++ natPad5 ac.2 ++ "_"
                          ++ pathName (itemLinkBase it)
                        src := it.path }], ac.2 + 1)
          else ac) acc) acc = acc by
    unfold stageEntries
    rw [hgen (([] : List ZipEntry), 1)]
  induction aids with
  | nil => intro acc; rfl
  | cons a t ih =>
      intro acc
      rw [List.foldl_cons, h a (List.mem_cons_self a t)]
      exact ih (fun aid ha => h aid (List.mem_cons_of_mem a ha)) acc

/-- Concrete parameters refuting C8: zip output, no collected images, empty
fallback scan. -/
def paramsC8 : DownloadParams :=
  { album_ids := ["123"]
    output_format := "zip"
    quality := none
    encrypt := false
    password := none
    compression := 6
    proxy := none
    option_file := none }

/-- C8 counterexample: with an empty resolved image set and zip output,
packaging does NOT raise — it produces an artifact (an empty DEFLATE
archive) and the invocation succeeds, so the task completes rather than
failing.  This refutes "packaging raises a fatal error and no artifact is
produced". -/
theorem C8_counterexample :
    selectedImages paramsC8.album_ids [] [] = [] ∧
    packageZipOutcome paramsC8 [] [] []
      = Except.ok { entries := [], encrypted := false, alg := .deflated } := by
  refine ⟨rfl, rfl⟩

/-- C8 amended: the packaging stage performs no empty-set check.  For
archive output an empty resolved image set yields a successfully produced
empty archive (`Except.ok`, zero entries), so the task completes; only the
document path's behavior depends on the external image-to-PDF converter. -/
theorem C8_empty_zip_completes
    (params : DownloadParams) (iba : List (String × List ImageItem))
    (scanned existing : List String)
    (hz : params.output_format = "zip")
    (hsel : selectedImages params.album_ids iba scanned = []) :
    packageArtifact params iba scanned existing
      = Sum.inl (packageZip params iba scanned existing) ∧
    (packageZip params iba scanned existing).entries = [] ∧
    packageZipOutcome params iba scanned existing
      = Except.ok (packageZip params iba scanned existing) := by
  refine ⟨by simp [packageArtifact, hz], ?_, rfl⟩
  have hitems : ∀ aid ∈ params.album_ids,
      (dictGet iba aid).getD [] = ([] : List ImageItem) := by
    intro aid ha
    have hflat := selectedImages_parts hsel
    have hmap := (List.flatMap_eq_nil_iff.mp hflat) aid ha
    exact sortItems_eq_nil (List.map_eq_nil_iff.mp hmap)
  cases hq : params.quality with
  | some q =>
      simp [packageZip, hq, hsel, reencodedFiles, make_zip]
  | none =>
      simp [packageZip, hq, make_zip,
        stageEntries_eq_nil params.album_ids iba existing hitems]

/-- Witness for the amended C8: album "123" whose collected image list is
empty, empty fallback scan. -/
theorem C8_witness :
    packageArtifact paramsC8 [("123", [])] [] []
      = Sum.inl (packageZip paramsC8 [("123", [])] [] []) ∧
    (packageZip paramsC8 [("123", [])] [] []).entries = [] ∧
    packageZipOutcome paramsC8 [("123", [])] [] []
      = Except.ok (packageZip paramsC8 [("123", [])] [] []) :=
  C8_empty_zip_completes paramsC8 [("123", [])] [] [] rfl rfl

/-- The raw request refuting C9: `album_ids` explicitly the empty list,
everything else omitted. -/
def rawC9 : RawRequest :=
  { album_ids := .many []
    output_format := none
    quality := none
    encrypt := none
    password := none
    compression := none
    cache := none
    proxy := none
    option_file := none }

/-- The validated request `rawC9` produces. -/
def reqC9 : TaskRequest :=
  { album_ids := []
    output_format := .zip
    quality := none
    encrypt := false
    password := none
    compression := some 6
    cache := true
    proxy := none
    option_file := none }

/-- Manager state for the C9 refutation: nothing registered, no cache
directory. -/
def stC9 : TMState :=
  { dedup := []
    tasks := []
    cacheDirPath := "data/cache"
    cacheDirFiles := none
    scheduled := [] }

/-- C9 counterexample: a request with an empty resource id list is NOT
rejected — `_coerce_ids` plus pydantic validation accept it (there is no
non-emptiness constraint), and `submit` creates and schedules a task for it
(`duplicate = false`, a body appended to the background schedule), refuting
"rejected as a validation error before any task is created, with no state
mutation". -/
theorem C9_counterexample :
    validateRequest rawC9 = some reqC9 ∧
    reqC9.album_ids = [] ∧
    (TaskManager.submit stC9 0 "task-9" reqC9).1.duplicate = false ∧
    (TaskManager.submit stC9 0 "task-9" reqC9).2.scheduled = [("task-9", reqC9)] := by
  refine ⟨rfl, rfl, rfl, rfl⟩

/-- C9 amended: `_coerce_ids` maps a scalar to a one-element list, null and
the empty list to `[]`; an empty resource id list passes validation
(provided the bounded fields are in range), and `submit` accepts the
request like any other — on a fresh key it creates a new queued task and
schedules its body rather than rejecting. -/
theorem C9_empty_ids_accepted :
    (∀ l : List AlbumId, coerce_ids (.many l) = l) ∧
    coerce_ids .null = [] ∧
    (∀ a : AlbumId, coerce_ids (.one a) = [a]) ∧
    (∀ r : RawRequest, r.album_ids = .many [] →
        qualityOk (r.quality.getD none) = true →
        compressionOk (r.compression.getD (some 6)) = true →
        ∃ req, validateRequest r = some req ∧ req.album_ids = []) ∧
    (∀ (st : TMState) (now : ℚ) (freshId : String) (req : TaskRequest),
        req.album_ids = [] →
        cacheShortcut st req = none →
        dictGet st.dedup (computeKey req) = none →
        (TaskManager.submit st now freshId req).1.duplicate = false ∧
        (TaskManager.submit st now freshId req).1.status = .queued ∧
        (TaskManager.submit st now freshId req).2.scheduled
          = st.scheduled ++ [(freshId, req)]) := by
  refine ⟨fun l => rfl, rfl, fun a => rfl, ?_, ?_⟩
  · intro r hids hq hcomp
    refine ⟨{ album_ids := []
              output_format := r.output_format.getD .zip
              quality := r.quality.getD none
              encrypt := r.encrypt.getD false
              password := r.password.getD none
              compression := r.compression.getD (some 6)
              cache := r.cache.getD true
              proxy := r.proxy.getD none
              option_file := r.option_file.getD none }, ?_, rfl⟩
    simp [validateRequest, hq, hcomp, hids, coerce_ids]
  · intro st now freshId req hempty hc hd
    cases hts : dictGet st.tasks freshId with
    | none =>
        refine ⟨?_, ?_, ?_⟩ <;>
          simp [TaskManager.submit, hc, hd, TaskManager.task_state, hts]
    | some s =>
        refine ⟨?_, ?_, ?_⟩ <;>
          simp [TaskManager.submit, hc, hd, TaskManager.task_state, hts]

/-- Witness for the amended C9 at the concrete raw request `rawC9` and
state `stC9`. -/
theorem C9_witness :
    (∃ req, validateRequest rawC9 = some req ∧ req.album_ids = []) ∧
    ((TaskManager.submit stC9 0 "task-9" reqC9).1.duplicate = false ∧
     (TaskManager.submit stC9 0 "task-9" reqC9).1.status = .queued ∧
     (TaskManager.submit stC9 0 "task-9" reqC9).2.scheduled
       = stC9.scheduled ++ [("task-9", reqC9)]) :=
  ⟨C9_empty_ids_accepted.2.2.2.1 rawC9 rfl rfl rfl,
   C9_empty_ids_accepted.2.2.2.2 stC9 0 "task-9" reqC9 rfl rfl rfl⟩

/-- Fetch script refuting C7: one album, whose download fires the metadata
hook and then one "after"-stage image hook. -/
def albumsC7 : List (String × List FetchEvent) :=
  [("123",
    [.albumMeta "123",
     .image true { album_id := "123", image_id := some "1", page := some 1,
                   path := "w/1.jpg", filename := some "1.jpg" }])]

/-- C7 counterexample: the reported progress sequence for `albumsC7` is
0.45 (pre-download marker), 0.1 (metadata hook), 0.2 (image hook), 0.5,
0.75, 0.95 — it DECREASES from 0.45 to 0.1, refuting non-decreasingness. -/
theorem C7_counterexample :
    ¬ List.Chain' (· ≤ ·) (progressTrace albumsC7 none) := by
  have he : progressTrace albumsC7 none
      = [9 / 20, 1 / 10, 1 / 5, 1 / 2, 3 / 4, 19 / 20] := by
    norm_num [progressTrace, progressReports, eventProgress, markerQ, albumsC7,
      List.enum_cons, List.enumFrom, List.flatMap_cons, List.flatMap_nil,
      List.filterMap_cons, List.filterMap_nil, Option.isSome,
      if_neg (show ¬(("123" : String) = "") from by decide)]
  rw [he]
  intro hchain
  have h1 := (List.chain'_cons.mp hchain).1
  norm_num at h1

theorem cbEntries_filter_nil (evs : List FetchEvent) :
    ((evs.filterMap (fun ev => (eventProgress ev).map (fun q => (true, q)))).filter
        (fun r : Bool × ℚ => !r.1)) = [] := by
  induction evs with
  | nil => rfl
  | cons ev t ih =>
      cases h : eventProgress ev <;>
        simp [List.filterMap_cons, h, List.filter_cons, ih]

theorem filter_flatMap_markers (n : Nat)
    (l : List (Nat × (String × List FetchEvent))) :
    ((l.flatMap (fun pr => (false, markerQ n pr.1)
        :: pr.2.2.filterMap (fun ev => (eventProgress ev).map (fun q => (true, q))))).filter
          (fun r : Bool × ℚ => !r.1))
      = l.map (fun pr => (false, markerQ n pr.1)) := by
  induction l with
  | nil => rfl
  | cons pr t ih =>
      rw [List.flatMap_cons, List.filter_append, List.filter_cons]
      simp only [Bool.not_false, if_pos]
      rw [cbEntries_filter_nil, ih]
      rfl

theorem milestoneValues_eq (albums : List (String × List FetchEvent))
    (quality : Option Int) :
    milestoneValues albums quality
      = (List.range albums.length).map (fun i => markerQ albums.length i)
        ++ [1 / 2]
        ++ (if quality.isSome then [11 / 20] else [])
        ++ [3 / 4, 19 / 20] := by
  unfold milestoneValues progressReports
  rw [List.filter_append, List.filter_append, List.filter_append,
      filter_flatMap_markers]
  have h2 : (([(false, (1 : ℚ) / 2)] : List (Bool × ℚ)).filter
      (fun r => !r.1)) = [(false, (1 : ℚ) / 2)] := rfl
  have h4 : (([(false, (3 : ℚ) / 4), (false, (19 : ℚ) / 20)] : List (Bool × ℚ)).filter
      (fun r => !r.1)) = [(false, (3 : ℚ) / 4), (false, (19 : ℚ) / 20)] := rfl
  have h3 : ((if quality.isSome then [(false, (11 : ℚ) / 20)] else []).filter
      (fun r : Bool × ℚ => !r.1))
      = (if quality.isSome then [(false, (11 : ℚ) / 20)] else []) := by
    cases quality <;> rfl
  rw [h2, h3, h4]
  rw [List.map_append, List.map_append, List.map_append, List.map_map]
  have hm : (albums.enum.map ((fun r : Bool × ℚ => r.2)
      ∘ (fun pr : Nat × (String × List FetchEvent) => (false, markerQ albums.length pr.1))))
      = (List.range albums.length).map (fun i => markerQ albums.length i) := by
    have : ((fun r : Bool × ℚ => r.2)
        ∘ (fun pr : Nat × (String × List FetchEvent) => (false, markerQ albums.length pr.1)))
        = (fun i => markerQ albums.length i) ∘ Prod.fst := rfl
    rw [this, ← List.map_map, List.enum_map_fst]
  rw [hm]
  cases quality <;> rfl

theorem markerQ_denom_pos (n : Nat) : (0 : ℚ) < ((max 1 n : ℕ) : ℚ) := by
  have h : (0 : ℕ) < max 1 n := lt_of_lt_of_le Nat.zero_lt_one (le_max_left 1 n)
  exact_mod_cast h

theorem markerQ_mono (n : Nat) {i j : Nat} (hij : i ≤ j) :
    markerQ n i ≤ markerQ n j := by
  unfold markerQ
  have hm := markerQ_denom_pos n
  have hc : ((i : ℚ) + 1) ≤ ((j : ℚ) + 1) := by
    have : (i : ℚ) ≤ (j : ℚ) := by exact_mod_cast hij
    linarith
  gcongr

theorem markerQ_le_half (n i : Nat) (hi : i < n) : markerQ n i ≤ 1 / 2 := by
  have hm := markerQ_denom_pos n
  have hfrac : ((i : ℚ) + 1) / ((max 1 n : ℕ) : ℚ) ≤ 1 := by
    rw [div_le_one hm]
    have h1 : (i + 1 : ℕ) ≤ max 1 n :=
      le_trans (Nat.succ_le_of_lt hi) (le_max_right 1 n)
    exact_mod_cast h1
  have h2 : markerQ n i = 1 / 20 + (2 / 5) * (((i : ℚ) + 1) / ((max 1 n : ℕ) : ℚ)) := by
    rw [markerQ, mul_div_assoc]
  rw [h2]
  have h3 : (2 / 5 : ℚ) * (((i : ℚ) + 1) / ((max 1 n : ℕ) : ℚ)) ≤ (2 / 5) * 1 :=
    mul_le_mul_of_nonneg_left hfrac (by norm_num)
  linarith

theorem markers_chain (n : Nat) :
    List.Chain' (· ≤ ·) ((List.range n).map (fun i => markerQ n i)) := by
  apply List.Pairwise.chain'
  rw [List.pairwise_map]
  exact (List.pairwise_lt_range n).imp (fun h => markerQ_mono n (le_of_lt h))

/-- C7 amended: while the interleaving of fetch-hook reports (fixed values
0.1 / 0.2) with the pre-album markers makes the full reported sequence
non-monotone, the subsequence of progress values the method body itself
reports — the per-album markers followed by the collect (0.5), re-encode
(0.55, when quality is set), package (0.75) and finalize (0.95) milestones
— is non-decreasing for every fetch script and quality setting. -/
theorem C7_milestones_monotone (albums : List (String × List FetchEvent))
    (quality : Option Int) :
    List.Chain' (· ≤ ·) (milestoneValues albums quality) := by
  rw [milestoneValues_eq, List.append_assoc, List.append_assoc]
  rw [List.chain'_append]
  refine ⟨markers_chain albums.length, ?_, ?_⟩
  · -- chain of [1/2] ++ opt ++ [3/4, 19/20]
    cases quality with
    | none =>
        simp only [Option.isSome, if_neg Bool.false_ne_true]
        norm_num [List.chain'_cons, List.chain'_singleton, List.nil_append]
    | some q =>
        norm_num [List.chain'_cons, List.chain'_singleton, Option.isSome]
  · intro x hx y hy
    have hhead : (([1 / 2] ++ ((if quality.isSome then [(11 : ℚ) / 20] else [])
        ++ [3 / 4, 19 / 20])).head?) = some (1 / 2) := rfl
    rw [hhead] at hy
    have hy' : y = 1 / 2 := by
      have := hy
      simp only [Option.mem_def, Option.some.injEq] at this
      rw [← this]
    obtain ⟨hne, hxl⟩ := List.mem_getLast?_eq_getLast hx
    have hmem : x ∈ (List.range albums.length).map
        (fun i => markerQ albums.length i) := by
      rw [hxl]
      exact List.getLast_mem hne
    obtain ⟨i, hi, hxi⟩ := List.mem_map.mp hmem
    rw [hy', ← hxi]
    exact markerQ_le_half albums.length i (List.mem_range.mp hi)
